import Mathlib

set_option autoImplicit false

/-!
Verification of the adaptive retrieval-and-caching core of the `hypera`
repository against its design specification.

The Python modules `src/retrieval/{types,context,cache,metrics,fallback,
adaptive_retriever}.py` are shallowly embedded below.  Python floats are
modelled as rationals (`ℚ`), Python lists as `List`, dictionaries either as
structures or as association lists, and wall-clock instants (`time.time()`,
`datetime.now()`) as rational-valued timestamps passed explicitly to every
operation that reads the clock.  Fallible constructors (pydantic validation)
return `Option`.
-/

namespace Hypera

/-! ## `src/retrieval/types.py` -/

/-- The `QueryType` enum. -/
inductive QueryType where
  | code_search
  | semantic_search
  | dependency_search
  | context_search
  deriving DecidableEq, Repr

/-- `RetrievalFilter`: filter criteria for retrieval queries.  The
`date_range` pair of `datetime`s is modelled as a pair of rational
timestamps.  Field defaults follow the pydantic declaration. -/
structure RetrievalFilter where
  languages : Option (List String) := none
  chunk_types : Option (List String) := none
  min_similarity : ℚ := 7/10
  max_results : Nat := 10
  date_range : Option (ℚ × ℚ) := none
  file_patterns : Option (List String) := none
  deriving DecidableEq, Repr

/-- `CodeContext`: context information for code.  The free-form `metadata`
dictionary is modelled as an association list of strings. -/
structure CodeContext where
  code_snippet : String
  file_path : Option String := none
  start_line : Option Nat := none
  end_line : Option Nat := none
  language : String := "python"
  imports : List String := []
  dependencies : List String := []
  callers : List String := []
  related_files : List String := []
  documentation : Option String := none
  metadata : List (String × String) := []
  deriving DecidableEq, Repr

/-- `RetrievalQuery`: a query for code retrieval.  Defaults follow the
pydantic field declarations (`filters` defaults to a fresh default
`RetrievalFilter`). -/
structure RetrievalQuery where
  query : String
  query_type : QueryType := .code_search
  filters : Option RetrievalFilter := some {}
  context : Option CodeContext := none
  max_results : Nat := 10
  min_similarity : ℚ := 7/10
  include_context : Bool := true
  deriving DecidableEq, Repr

/-- A retrieved chunk.  In Python a chunk is a `Dict[str, Any]`; the only key
the embedded code paths ever read is `"content"`, so a chunk is modelled by
that field.  The empty string models every falsy value of
`chunk.get("content")` (missing key, `None`, `""`). -/
structure Chunk where
  content : String
  deriving DecidableEq, Repr

/-- `RetrievalResult`: result of a code retrieval operation (the raw record,
before pydantic validation; see `mkRetrievalResult`). -/
structure RetrievalResult where
  query : RetrievalQuery
  chunks : List Chunk
  similarity_scores : List ℚ
  execution_time : ℚ
  total_chunks_searched : Nat
  context : Option CodeContext := none
  deriving DecidableEq, Repr

/-- The `validate_chunks` field validator: every chunk must have truthy
(non-empty) content.  `if not v: return v` makes the empty list pass, which
coincides with `List.all` on `[]`. -/
def validateChunks (v : List Chunk) : Bool :=
  v.all (fun c => c.content ≠ "")

/-- The `validate_scores` field validator: every similarity score must lie in
`[0, 1]`. -/
def validateScores (v : List ℚ) : Bool :=
  v.all (fun s => 0 ≤ s ∧ s ≤ 1)

/-- Constructing a `RetrievalResult` through pydantic: the construction
succeeds exactly when both field validators accept.  There is no validator
relating `chunks` to `similarity_scores`. -/
def mkRetrievalResult (query : RetrievalQuery) (chunks : List Chunk)
    (similarity_scores : List ℚ) (execution_time : ℚ)
    (total_chunks_searched : Nat) (context : Option CodeContext) :
    Option RetrievalResult :=
  if validateChunks chunks && validateScores similarity_scores then
    some ⟨query, chunks, similarity_scores, execution_time,
          total_chunks_searched, context⟩
  else
    none

/-- A default query used for concrete instances in the theorems below. -/
def sampleQuery : RetrievalQuery :=
  { query := "test query" }

/-! ## `src/retrieval/context.py`

`ContextManager._optimize_window` and `add_result` measure already-held
entries with Python's `len(str(result))` and `len(str(result.context.dict()))`.
The textual rendering `str(...)` of a pydantic object is not part of the
algorithm, so its length is supplied as an explicit parameter (`sLen` for a
result, `cLen` for a context dictionary) to the functions that use it. -/

/-- An entry held in the context window: the dictionary
`{"result": result, "relevance": relevance}` built by `ContextManager`. -/
structure WindowEntry where
  result : RetrievalResult
  relevance : ℚ
  deriving DecidableEq, Repr

/-- The `ContextWindow` dataclass. -/
structure ContextWindow where
  max_tokens : Nat := 2000000
  current_tokens : Nat := 0
  contents : List WindowEntry := []
  deriving DecidableEq, Repr

namespace ContextWindow

/-- `can_add`: check if `token_count` more tokens fit in the window. -/
def can_add (w : ContextWindow) (token_count : Nat) : Bool :=
  w.current_tokens + token_count ≤ w.max_tokens

/-- `add_content`: append the content and charge `token_count` tokens if space
allows; returns the updated window and the boolean result. -/
def add_content (w : ContextWindow) (content : WindowEntry) (token_count : Nat) :
    ContextWindow × Bool :=
  if w.can_add token_count then
    ({ w with contents := w.contents ++ [content],
              current_tokens := w.current_tokens + token_count }, true)
  else
    (w, false)

/-- `clear`: empty the window and reset the token count. -/
def clear (w : ContextWindow) : ContextWindow :=
  { w with contents := [], current_tokens := 0 }

end ContextWindow

/-- The `ContextManager` state: its window and the retrieval history. -/
structure ContextManager where
  window : ContextWindow := {}
  context_history : List RetrievalResult := []
  deriving DecidableEq, Repr

namespace ContextManager

/-- `_estimate_tokens`: `len(content) // 4`. -/
def _estimate_tokens (content : String) : Nat :=
  content.length / 4

/-- `_calculate_relevance`: mean similarity score, `0.0` with no scores. -/
def _calculate_relevance (result : RetrievalResult) : ℚ :=
  if result.similarity_scores = [] then 0
  else result.similarity_scores.sum / result.similarity_scores.length

/-- The token cost `add_result` computes for an incoming result: the `len/4`
estimate of every chunk's content, plus the estimate of
`str(result.context.dict())` when a context is present (`cLen` gives that
string's length). -/
def resultTokens (cLen : CodeContext → Nat) (result : RetrievalResult) : Nat :=
  (result.chunks.map (fun c => _estimate_tokens c.content)).sum +
    (match result.context with
     | some c => cLen c / 4
     | none => 0)

/-- Stable insertion of a `(result, relevance)` pair into a list already in
descending relevance order: `a` goes before the first element whose relevance
is `≤` its own. -/
def insertByRelevanceDesc (a : RetrievalResult × ℚ) :
    List (RetrievalResult × ℚ) → List (RetrievalResult × ℚ)
  | [] => [a]
  | b :: l => if b.2 ≤ a.2 then a :: b :: l else b :: insertByRelevanceDesc a l

/-- Python's `scores.sort(key=lambda x: x[1], reverse=True)` is the stable
descending sort by relevance; a stable insertion sort computes the same
list. -/
def sortByRelevanceDesc : List (RetrievalResult × ℚ) → List (RetrievalResult × ℚ)
  | [] => []
  | a :: l => insertByRelevanceDesc a (sortByRelevanceDesc l)

/-- The greedy keep-loop of `_optimize_window`: walk the relevance-sorted
pairs, skip entries below the `0.7` relevance floor, and keep an entry when
its `len(str(result))` cost still fits in `max_tokens - required_tokens`
(computed in `ℤ`, as Python subtraction can go negative). -/
def keepEntries (sLen : RetrievalResult → Nat) (maxTokens required : Nat) :
    List (RetrievalResult × ℚ) → Nat → List WindowEntry
  | [], _ => []
  | (r, score) :: rest, current =>
    if score < 7/10 then
      keepEntries sLen maxTokens required rest current
    else if (current : ℤ) + sLen r ≤ (maxTokens : ℤ) - (required : ℤ) then
      ⟨r, score⟩ :: keepEntries sLen maxTokens required rest (current + sLen r)
    else
      keepEntries sLen maxTokens required rest current

/-- `_optimize_window`: with an empty window do nothing and report success;
otherwise sort the held entries by descending relevance, keep the greedy
selection, clear the window and re-add the kept entries (each charged
`len(str(result))` tokens).  The incoming result is never added here, and the
function always returns `true`.  (The source also computes an unused
`total_tokens` sum before the loop; being dead code it is not modelled.) -/
def _optimize_window (sLen : RetrievalResult → Nat) (m : ContextManager)
    (_new_result : RetrievalResult) (required_tokens : Nat) :
    ContextManager × Bool :=
  if m.window.contents = [] then
    (m, true)
  else
    let sorted := sortByRelevanceDesc
      (m.window.contents.map (fun c => (c.result, c.relevance)))
    let kept := keepEntries sLen m.window.max_tokens required_tokens sorted 0
    let w := kept.foldl
      (fun w e => (w.add_content e (sLen e.result)).1) m.window.clear
    ({ m with window := w }, true)

/-- `add_result`: estimate the result's token cost; on a direct fit append the
`{result, relevance}` entry and record the result in the history, otherwise
fall through to `_optimize_window`. -/
def add_result (sLen : RetrievalResult → Nat) (cLen : CodeContext → Nat)
    (m : ContextManager) (result : RetrievalResult) : ContextManager × Bool :=
  let total_tokens := resultTokens cLen result
  if m.window.can_add total_tokens then
    ({ window := (m.window.add_content ⟨result, _calculate_relevance result⟩
                    total_tokens).1,
       context_history := m.context_history ++ [result] }, true)
  else
    _optimize_window sLen m result total_tokens

/-- `get_current_context`: the results currently held in the window. -/
def get_current_context (m : ContextManager) : List RetrievalResult :=
  m.window.contents.map (·.result)

/-- `clear_context`: clear the window and the history. -/
def clear_context (m : ContextManager) : ContextManager :=
  { window := m.window.clear, context_history := [] }

end ContextManager

/-! ## `src/retrieval/cache.py` -/

/-- `RateLimitConfig` with its dataclass defaults. -/
structure RateLimitConfig where
  requests_per_minute : Nat := 60
  burst_limit : Nat := 10
  cooldown_seconds : ℚ := 1
  deriving DecidableEq, Repr

/-- `CacheConfig` with its dataclass defaults. -/
structure CacheConfig where
  ttl_seconds : ℚ := 3600
  max_size : Nat := 1000
  min_similarity : ℚ := 95/100
  deriving DecidableEq, Repr

/-- `RateLimiter` state: fractional token count, last refill instant, and the
sliding deque of grant timestamps. -/
structure RateLimiter where
  config : RateLimitConfig
  tokens : ℚ
  last_update : ℚ
  requests : List ℚ
  deriving DecidableEq, Repr

namespace RateLimiter

/-- `__init__`: full burst of tokens, empty request deque, clock read at
construction time. -/
def init (config : RateLimitConfig) (now : ℚ) : RateLimiter :=
  { config := config, tokens := config.burst_limit, last_update := now,
    requests := [] }

/-- `_refill_tokens`: add `elapsed * (requests_per_minute / 60.0)` tokens,
capped at `burst_limit`. -/
def _refill_tokens (s : RateLimiter) (now : ℚ) : RateLimiter :=
  { s with
      tokens := min (s.config.burst_limit : ℚ)
        (s.tokens + (now - s.last_update) * ((s.config.requests_per_minute : ℚ) / 60)),
      last_update := now }

/-- `acquire`: refill, prune requests older than 60 seconds (the `while ...
popleft` loop is `dropWhile` on the front), then check the sliding-window
limit, then the token-bucket level; on grant consume one token and record the
timestamp.  Returns `((granted, wait_seconds), new state)`.  `requests[0]` is
read only when the deque is non-empty (the window check guarantees that in
every configuration with `requests_per_minute ≥ 1`); `headI` supplies the
irrelevant default. -/
def acquire (s : RateLimiter) (now : ℚ) : (Bool × ℚ) × RateLimiter :=
  let s1 := _refill_tokens s now
  let reqs := s1.requests.dropWhile (fun t => t < now - 60)
  if s1.config.requests_per_minute ≤ reqs.length then
    ((false, max 0 (60 - (now - reqs.headI))), { s1 with requests := reqs })
  else if s1.tokens < 1 then
    ((false, s1.config.cooldown_seconds), { s1 with requests := reqs })
  else
    ((true, (0 : ℚ)),
     { s1 with tokens := s1.tokens - 1, requests := reqs ++ [now] })

/-- The state after `n` successive `acquire` calls issued at instant `now`. -/
def acquireIter (now : ℚ) (s : RateLimiter) : Nat → RateLimiter
  | 0 => s
  | n + 1 => ((acquireIter now s n).acquire now).2

end RateLimiter

/-- The projection of a query that `_compute_key` serializes and hashes:
`(query, query_type, filters, max_results)`.  The sha256 hex digest is
deterministic and injective on this projection up to hash collisions, so the
key is modelled by the projection itself. -/
structure CacheKey where
  query : String
  query_type : QueryType
  filters : Option RetrievalFilter
  max_results : Nat
  deriving DecidableEq, Repr

/-- `ResultCache` state: the insertion-ordered dictionary (an association
list `key ↦ (result, timestamp)` with unique keys) and the hit/miss
counters. -/
structure ResultCache where
  config : CacheConfig := {}
  cache : List (CacheKey × RetrievalResult × ℚ) := []
  hits : Nat := 0
  misses : Nat := 0
  deriving DecidableEq, Repr

namespace ResultCache

/-- `_compute_key`. -/
def _compute_key (q : RetrievalQuery) : CacheKey :=
  ⟨q.query, q.query_type, q.filters, q.max_results⟩

/-- `self.cache[key]` (read): first — and by key uniqueness only — entry for
the key. -/
def dictGet (l : List (CacheKey × RetrievalResult × ℚ)) (k : CacheKey) :
    Option (RetrievalResult × ℚ) :=
  (l.find? (fun p => decide (p.1 = k))).map (·.2)

/-- `self.cache[key] = v` (write): replace in place when present (Python
dicts keep the original position), append otherwise. -/
def dictSet (l : List (CacheKey × RetrievalResult × ℚ)) (k : CacheKey)
    (v : RetrievalResult × ℚ) : List (CacheKey × RetrievalResult × ℚ) :=
  if l.any (fun p => decide (p.1 = k)) then
    l.map (fun p => if p.1 = k then (k, v) else p)
  else
    l ++ [(k, v)]

/-- `del self.cache[key]`. -/
def dictDel (l : List (CacheKey × RetrievalResult × ℚ)) (k : CacheKey) :
    List (CacheKey × RetrievalResult × ℚ) :=
  l.filter (fun p => decide (p.1 ≠ k))

/-- `_is_similar_query`: exact match on raw query text and query type. -/
def _is_similar_query (cached_query new_query : RetrievalQuery) : Bool :=
  cached_query.query = new_query.query &&
    cached_query.query_type = new_query.query_type

/-- `get`: look the key up; expire (and physically delete) an entry older
than `ttl_seconds`, counting a miss; otherwise a similarity check decides
between a hit and a (non-deleting) miss. -/
def get (c : ResultCache) (now : ℚ) (q : RetrievalQuery) :
    Option RetrievalResult × ResultCache :=
  let key := _compute_key q
  match dictGet c.cache key with
  | some (result, timestamp) =>
    if c.config.ttl_seconds < now - timestamp then
      (none, { c with cache := dictDel c.cache key, misses := c.misses + 1 })
    else if _is_similar_query result.query q then
      (some result, { c with hits := c.hits + 1 })
    else
      (none, { c with misses := c.misses + 1 })
  | none => (none, { c with misses := c.misses + 1 })

/-- Stable insertion into a list ascending by timestamp (`sorted` with
`key=lambda x: x[1][1]` is the stable ascending sort). -/
def insertByTimestamp (a : CacheKey × RetrievalResult × ℚ) :
    List (CacheKey × RetrievalResult × ℚ) → List (CacheKey × RetrievalResult × ℚ)
  | [] => [a]
  | b :: l => if a.2.2 ≤ b.2.2 then a :: b :: l else b :: insertByTimestamp a l

/-- Stable ascending sort by timestamp. -/
def sortByTimestamp :
    List (CacheKey × RetrievalResult × ℚ) → List (CacheKey × RetrievalResult × ℚ)
  | [] => []
  | a :: l => insertByTimestamp a (sortByTimestamp l)

/-- `put`: store `(result, now)` under the key, then, beyond `max_size`,
delete the oldest-by-timestamp surplus entries. -/
def put (c : ResultCache) (now : ℚ) (q : RetrievalQuery)
    (result : RetrievalResult) : ResultCache :=
  let cache1 := dictSet c.cache (_compute_key q) (result, now)
  if c.config.max_size < cache1.length then
    let surplus := (sortByTimestamp cache1).take (cache1.length - c.config.max_size)
    let doomed := surplus.map (·.1)
    { c with cache := cache1.filter (fun p => decide (p.1 ∉ doomed)) }
  else
    { c with cache := cache1 }

end ResultCache

/-! ## `src/retrieval/metrics.py` -/

/-- `RetrievalMetrics` record (the pydantic range constraints are checked by
`metricsValid` below, since construction fails when they are violated). -/
structure RetrievalMetrics where
  precision : ℚ
  recall_score : ℚ
  f1_score : ℚ
  latency_ms : ℚ
  token_utilization : ℚ
  cache_hit_rate : ℚ
  error_rate : ℚ
  query_type : QueryType
  timestamp : ℚ
  deriving DecidableEq, Repr

/-- The pydantic field constraints of `RetrievalMetrics`: every rate-like
field in `[0,1]`, latency non-negative. -/
def metricsValid (m : RetrievalMetrics) : Bool :=
  0 ≤ m.precision && m.precision ≤ 1 &&
  (0 ≤ m.recall_score && m.recall_score ≤ 1) &&
  (0 ≤ m.f1_score && m.f1_score ≤ 1) &&
  0 ≤ m.latency_ms &&
  (0 ≤ m.token_utilization && m.token_utilization ≤ 1) &&
  (0 ≤ m.cache_hit_rate && m.cache_hit_rate ≤ 1) &&
  (0 ≤ m.error_rate && m.error_rate ≤ 1)

/-- `ValidationResult` record. -/
structure ValidationResult where
  is_valid : Bool
  confidence : ℚ
  issues : List String
  suggestions : List String
  deriving DecidableEq, Repr

/-- A per-query-type row of the `query_type_breakdown` dictionary:
mean precision, mean recall, mean latency, count. -/
structure BreakdownRow where
  precision : ℚ
  recall_score : ℚ
  latency_ms : ℚ
  count : Nat
  deriving DecidableEq, Repr

/-- `PerformanceSummary` record.  The breakdown dictionary is an association
list keyed by query type in order of first occurrence; `time_window` is the
`timedelta` in seconds. -/
structure PerformanceSummary where
  status : String
  average_precision : ℚ
  average_recall : ℚ
  average_latency_ms : ℚ
  query_type_breakdown : List (QueryType × BreakdownRow)
  time_window : ℚ
  deriving DecidableEq, Repr

/-- `np.mean` over a non-empty list (`sum / len`). -/
def npMean (l : List ℚ) : ℚ :=
  l.sum / l.length

namespace MetricsTracker

/-- The arithmetic of `calculate_metrics` before pydantic validation:
precision is the share of scores at or above the query's `min_similarity`,
recall the share of scores among the searched candidates, both floored at
`0.01` (and f1 computed from the floored values) as soon as any score
exists. -/
def metricsRaw (result : RetrievalResult) (now : ℚ) : RetrievalMetrics :=
  let relevant_count :=
    (result.similarity_scores.filter
      (fun score => result.query.min_similarity ≤ score)).length
  let total_count := result.similarity_scores.length
  let precision : ℚ := if 0 < total_count then
    (relevant_count : ℚ) / (total_count : ℚ) else 0
  let recallVal : ℚ := if 0 < total_count then
    (total_count : ℚ) / (max result.total_chunks_searched 1 : Nat) else 0
  let precision := if 0 < total_count then max precision (1/100) else precision
  let recallVal := if 0 < total_count then max recallVal (1/100) else recallVal
  let f1_score : ℚ := if 0 < total_count then
    2 * (precision * recallVal) / (precision + recallVal) else 0
  { precision := precision
    recall_score := recallVal
    f1_score := f1_score
    latency_ms := result.execution_time * 1000
    token_utilization := if 0 < result.query.max_results then
      (result.chunks.length : ℚ) / (result.query.max_results : ℚ) else 0
    cache_hit_rate := 0
    error_rate := 0
    query_type := result.query.query_type
    timestamp := now }

/-- `calculate_metrics`: the computed record when pydantic accepts it,
`none` when constructing `RetrievalMetrics` raises.  (On success the source
also appends the record to `metrics_history`.) -/
def calculate_metrics (result : RetrievalResult) (now : ℚ) :
    Option RetrievalMetrics :=
  let m := metricsRaw result now
  if metricsValid m then some m else none

/-- `_is_system_healthy`: vacuously healthy on no data, otherwise the three
averaged thresholds. -/
def _is_system_healthy (metrics : List RetrievalMetrics) : Bool :=
  if metrics = [] then true
  else
    7/10 ≤ npMean (metrics.map (·.precision)) &&
    1/2 ≤ npMean (metrics.map (·.recall_score)) &&
    npMean (metrics.map (·.latency_ms)) ≤ 1000

/-- A `window_size` argument: trailing count (default `100`) or trailing
`timedelta`. -/
inductive WindowSize where
  | count (n : Nat)
  | duration (seconds : ℚ)
  deriving DecidableEq, Repr

/-- The metrics inside the requested window: for a `timedelta`, timestamps
strictly after `now - window`; for a count `n`, Python's `history[-n:]`
(which is the whole list when `n = 0`). -/
def recentMetrics (now : ℚ) (w : WindowSize) (history : List RetrievalMetrics) :
    List RetrievalMetrics :=
  match w with
  | .duration d => history.filter (fun m => now - d < m.timestamp)
  | .count n => if n = 0 then history else history.drop (history.length - n)

/-- The summary both empty branches of `get_performance_summary` return. -/
def emptySummary : PerformanceSummary :=
  { status := "healthy", average_precision := 0, average_recall := 0,
    average_latency_ms := 0, query_type_breakdown := [], time_window := 0 }

/-- Distinct query types in order of first occurrence (Python dict insertion
order in `metrics_by_type`). -/
def distinctTypes (metrics : List RetrievalMetrics) : List QueryType :=
  metrics.foldl
    (fun acc m => if m.query_type ∈ acc then acc else acc ++ [m.query_type]) []

/-- `get_performance_summary`. -/
def get_performance_summary (now : ℚ) (history : List RetrievalMetrics)
    (window_size : WindowSize) : PerformanceSummary :=
  if history = [] then emptySummary
  else
    let recent := recentMetrics now window_size history
    if recent = [] then emptySummary
    else
      { status := if _is_system_healthy recent then "healthy" else "degraded"
        average_precision := npMean (recent.map (·.precision))
        average_recall := npMean (recent.map (·.recall_score))
        average_latency_ms := npMean (recent.map (·.latency_ms))
        query_type_breakdown := (distinctTypes recent).map (fun qt =>
          let ms := recent.filter (fun m => m.query_type = qt)
          (qt, { precision := npMean (ms.map (·.precision))
                 recall_score := npMean (ms.map (·.recall_score))
                 latency_ms := npMean (ms.map (·.latency_ms))
                 count := ms.length }))
        time_window := match window_size with
          | .duration d => d
          | .count _ => 0 }

/-- `check_system_health`: trusting `is_valid=True, confidence=1.0` on an
empty history, otherwise thresholds over the last 100 records. -/
def check_system_health (history : List RetrievalMetrics) : ValidationResult :=
  if history = [] then
    { is_valid := true, confidence := 1,
      issues := ["No metrics data available yet"], suggestions := [] }
  else
    let recent := history.drop (history.length - 100)
    let is_healthy := _is_system_healthy recent
    let lowPrecision := npMean (recent.map (·.precision)) < 7/10
    let highLatency := 1000 < npMean (recent.map (·.latency_ms))
    { is_valid := is_healthy
      confidence := if is_healthy then 9/10 else 7/10
      issues := (if lowPrecision then ["Low precision"] else []) ++
                (if highLatency then ["High latency"] else [])
      suggestions :=
        (if lowPrecision then ["Consider adjusting similarity thresholds"] else []) ++
        (if highLatency then ["Consider optimizing retrieval pipeline"] else []) }

end MetricsTracker

/-! ## `src/retrieval/fallback.py` -/

/-- A Python exception value as the fallback code observes it:
`isinstance(error, TimeoutError)` / `isinstance(error, ConnectionError)`
(covering subclasses) and `str(error)`. -/
structure PyError where
  isTimeoutError : Bool := false
  isConnectionError : Bool := false
  message : String := ""
  deriving DecidableEq, Repr

/-- The `FallbackStrategy` enum. -/
inductive FallbackStrategy where
  | cache_only
  | reduced_context
  | simplified_query
  | local_search
  | error_only
  deriving DecidableEq, Repr

/-- `FallbackConfig`; the `strategies` default is the `__post_init__`
list. -/
structure FallbackConfig where
  max_retries : Nat := 3
  retry_delay : ℚ := 1
  timeout : ℚ := 10
  strategies : List FallbackStrategy :=
    [.cache_only, .reduced_context, .simplified_query, .local_search,
     .error_only]
  deriving DecidableEq, Repr

/-- A `failure_history` record: `(datetime.now(), error)`. -/
abbrev FailureHistory := List (ℚ × PyError)

namespace FallbackManager

/-- `_record_failure`: append `(now, error)` and prune entries older than one
hour (keep `dt >= now - 1h`). -/
def _record_failure (h : FailureHistory) (now : ℚ) (error : PyError) :
    FailureHistory :=
  (h ++ [(now, error)]).filter (fun p => now - 3600 ≤ p.1)

/-- The `recent_failures` count of `_should_activate_fallback`: failures with
`dt >= now - 5 minutes`. -/
def recentFailureCount (h : FailureHistory) (now : ℚ) : Nat :=
  (h.filter (fun p => now - 300 ≤ p.1)).length

/-- `_should_activate_fallback`: at least 3 recent failures, or a
timeout/connection error, or a message starting with
`"Rate limit exceeded"`. -/
def _should_activate_fallback (h : FailureHistory) (now : ℚ)
    (error : PyError) : Bool :=
  3 ≤ recentFailureCount h now ||
    error.isTimeoutError || error.isConnectionError ||
    error.message.startsWith "Rate limit exceeded"

/-- `_simplify_query`: strip filters, cap `max_results` at 5, disable
context. -/
def _simplify_query (query : RetrievalQuery) : RetrievalQuery :=
  { query with filters := none, max_results := min query.max_results 5,
               include_context := false }

/-- `_execute_fallback`: the source is an explicit placeholder that returns
`None` for every query. -/
def _execute_fallback (_query : RetrievalQuery) : Option RetrievalResult :=
  none

/-- The empty, error-tagged result the `ERROR_ONLY` strategy constructs
(its pydantic validation trivially succeeds on empty lists). -/
def errorOnlyResult (query : RetrievalQuery) : RetrievalResult :=
  { query := query, chunks := [], similarity_scores := [],
    execution_time := 0, total_chunks_searched := 0, context := none }

/-- The strategy loop of `handle_failure`: `CACHE_ONLY` and `LOCAL_SEARCH`
`continue` (skipped "for now"); `REDUCED_CONTEXT` and `SIMPLIFIED_QUERY`
`return` whatever `_execute_fallback` gives (including `None`); `ERROR_ONLY`
returns the empty tagged result.  No modelled strategy raises, so the
`except: continue` arm is unreachable. -/
def tryStrategies (query : RetrievalQuery) :
    List FallbackStrategy → Option RetrievalResult
  | [] => none
  | s :: rest =>
    match s with
    | .cache_only => tryStrategies query rest
    | .reduced_context => _execute_fallback { query with include_context := false }
    | .simplified_query => _execute_fallback (_simplify_query query)
    | .local_search => tryStrategies query rest
    | .error_only => some (errorOnlyResult query)

/-- The observable outcome of a `handle_failure` call: a returned value, or
the `TypeError` its plain-retry branch raises — `await time.sleep(...)`
awaits the `None` that `time.sleep` returns, and `None` is not awaitable, so
that branch never reaches its `return None`. -/
inductive HandleOutcome where
  | returns (result : Option RetrievalResult)
  | raisesTypeError
  deriving DecidableEq, Repr

/-- `handle_failure`: record the failure; return `None` when the attempt
budget is exceeded; when the activation rule does not fire, sleep and then
raise `TypeError` (`await time.sleep(...)` on a non-awaitable `None`);
otherwise return the strategy loop's value.  The outcome is paired with the
updated failure history. -/
def handle_failure (config : FallbackConfig) (h : FailureHistory) (now : ℚ)
    (error : PyError) (query : RetrievalQuery) (attempt : Nat) :
    HandleOutcome × FailureHistory :=
  let h1 := _record_failure h now error
  if config.max_retries < attempt then
    (.returns none, h1)
  else if !(_should_activate_fallback h1 now error) then
    (.raisesTypeError, h1)
  else
    (.returns (tryStrategies query config.strategies), h1)

end FallbackManager

/-! ## `src/retrieval/adaptive_retriever.py`

`AdaptiveRetriever._estimate_query_complexity` reads the attributes `text`,
`filters` (used with `len(... or [])`, i.e. an optional list), `code_context`
and `metadata` from its query argument.  These are not the field names of
`RetrievalQuery` in `src/retrieval/types.py` (which has `query`, a structured
`filters` object, `context`, and no `metadata`); the function is written
against the distinct query shape below. -/

/-- The query shape `_estimate_query_complexity` reads.  `code_context` and
`metadata` stand for arbitrary Python values tested with `bool(...)`;
an absent (`None`) or empty value is falsy. -/
structure AdaptiveQuery where
  text : String
  filters : Option (List String) := none
  code_context : Option String := none
  metadata : Option String := none
  deriving DecidableEq, Repr

/-- `SearchStrategy`. -/
structure SearchStrategy where
  similarity_threshold : ℚ
  max_results : Nat
  rerank_count : Nat
  use_metadata : Bool
  success_rate : ℚ := 0
  deriving DecidableEq, Repr

namespace AdaptiveRetriever

/-- The `"quick"` entry of `search_strategies`. -/
def quickStrategy : SearchStrategy :=
  { similarity_threshold := 7/10, max_results := 5, rerank_count := 10,
    use_metadata := false }

/-- The `"balanced"` entry of `search_strategies`. -/
def balancedStrategy : SearchStrategy :=
  { similarity_threshold := 6/10, max_results := 10, rerank_count := 20,
    use_metadata := true }

/-- The `"thorough"` entry of `search_strategies`. -/
def thoroughStrategy : SearchStrategy :=
  { similarity_threshold := 1/2, max_results := 20, rerank_count := 40,
    use_metadata := true }

/-- Count the maximal non-whitespace runs in a character list; the flag
records whether the previous character was inside a word. -/
def wordCountAux : List Char → Bool → Nat
  | [], _ => 0
  | c :: cs, inWord =>
    if c.isWhitespace then wordCountAux cs false
    else (if inWord then 0 else 1) + wordCountAux cs true

/-- `len(text.split())`: `str.split()` with no argument splits on whitespace
runs and drops empty pieces, so the count is the number of maximal
non-whitespace runs. -/
def pyWordCount (s : String) : Nat :=
  wordCountAux s.toList false

/-- `text.count('"')`. -/
def quoteCount (s : String) : Nat :=
  (s.toList.filter (fun c => c = '"')).length

/-- `bool(x)` as an arithmetic factor for the modelled optional values. -/
def pyBool (x : Option String) : Nat :=
  match x with
  | none => 0
  | some s => if s = "" then 0 else 1

/-- `_estimate_query_complexity`: the five factors weighted by
`[0.3, 0.2, 0.1, 0.2, 0.2]` and divided by the weight total (which is `1.0`).
The factors themselves are raw counts and are never normalized. -/
def _estimate_query_complexity (query : AdaptiveQuery) : ℚ :=
  let factors : List ℚ :=
    [pyWordCount query.text, (query.filters.getD []).length,
     quoteCount query.text, pyBool query.code_context, pyBool query.metadata]
  let weights : List ℚ := [3/10, 2/10, 1/10, 2/10, 2/10]
  ((factors.zip weights).map (fun p => p.1 * p.2)).sum / weights.sum

/-- `_select_strategy`: the agent context is modelled by its
`"window_size"` entry; `agent_context.get("window_size", 500_000) if
agent_context else 500_000` collapses to `getD 500000`. -/
def _select_strategy (query : AdaptiveQuery) (agent_context : Option Nat) :
    SearchStrategy :=
  let query_complexity := _estimate_query_complexity query
  let window_size := agent_context.getD 500000
  if 8/10 < query_complexity || 1000000 < window_size then thoroughStrategy
  else if 4/10 < query_complexity || 500000 < window_size then balancedStrategy
  else quickStrategy

end AdaptiveRetriever

/-! ## Concrete instances used by the theorems below -/

/-- A 44-character chunk: its `len // 4` estimate is 11 tokens. -/
def chunk44 : Chunk :=
  ⟨"01234567890123456789012345678901234567890123"⟩

/-- A result whose single 44-character chunk estimates to 11 tokens. -/
def bigResult : RetrievalResult :=
  { query := sampleQuery, chunks := [chunk44], similarity_scores := [9/10],
    execution_time := 1/10, total_chunks_searched := 1 }

/-- A fresh manager whose window capacity was narrowed to 10 tokens (the
repository's tests mutate `manager.window.max_tokens` the same way). -/
def smallManager : ContextManager :=
  { window := { max_tokens := 10 } }

/-- A result carrying the spec's high similarity scores `[0.9, 0.85, 0.95]`
(query defaults give `min_similarity = 0.7`). -/
def highScoresResult : RetrievalResult :=
  { query := sampleQuery,
    chunks := [⟨"chunk_0"⟩, ⟨"chunk_1"⟩, ⟨"chunk_2"⟩],
    similarity_scores := [9/10, 17/20, 19/20],
    execution_time := 1/10, total_chunks_searched := 100 }

/-- A result carrying the spec's low similarity scores `[0.5, 0.4, 0.6]`. -/
def lowScoresResult : RetrievalResult :=
  { query := sampleQuery,
    chunks := [⟨"chunk_0"⟩, ⟨"chunk_1"⟩, ⟨"chunk_2"⟩],
    similarity_scores := [1/2, 2/5, 3/5],
    execution_time := 1/10, total_chunks_searched := 100 }

/-- A result with one chunk but no similarity scores (pydantic accepts it:
no validator compares the two lists). -/
def oneChunkNoScores : RetrievalResult :=
  { query := sampleQuery, chunks := [⟨"c"⟩], similarity_scores := [],
    execution_time := 1/10, total_chunks_searched := 1 }

/-- A lone `ConnectionError` with no special message. -/
def connectionError : PyError :=
  { isConnectionError := true, message := "connection refused" }

/-- A generic exception: not a timeout, not a connection error, and its
message does not indicate an upstream rate limit. -/
def genericError : PyError :=
  { message := "boom" }

/-- A ten-word query with no filters, code context or metadata. -/
def tenWordQuery : AdaptiveQuery :=
  { text := "a a a a a a a a a a" }

/-- A one-word query with no filters, code context or metadata. -/
def oneWordQuery : AdaptiveQuery :=
  { text := "hello" }

/-- The metrics record `calculate_metrics` computes for `oneChunkNoScores`:
no scores means zero precision, recall and f1, with 100 ms latency and one
chunk of ten requested. -/
def noScoresMetrics : RetrievalMetrics :=
  { precision := 0, recall_score := 0, f1_score := 0, latency_ms := 100,
    token_utilization := 1/10, cache_hit_rate := 0, error_rate := 0,
    query_type := .code_search, timestamp := 0 }

/-! ## C1 — RetrievalResult construction-time validation -/

/-- C1 (counterexample): pydantic accepts a `RetrievalResult` whose chunk
list (empty) and similarity-score list (one in-range score) have different
lengths, so constructing a length-mismatched result does not fail and such a
result can reach the cache and the context window. -/
theorem c1_length_mismatch_accepted :
    (mkRetrievalResult sampleQuery [] [1/2] 0 0 none).isSome = true ∧
    ([] : List Chunk).length ≠ [(1/2 : ℚ)].length := by
  constructor
  · norm_num [mkRetrievalResult, validateChunks, validateScores]
  · decide

/-- C1 (amended): constructing a `RetrievalResult` succeeds exactly when
every chunk has non-empty content and every similarity score lies in
`[0, 1]`; the lengths of the two lists are never compared. -/
theorem c1_construction_validation (q : RetrievalQuery) (cs : List Chunk)
    (ss : List ℚ) (t : ℚ) (n : Nat) (ctx : Option CodeContext) :
    (mkRetrievalResult q cs ss t n ctx).isSome = true ↔
      ((∀ c ∈ cs, c.content ≠ "") ∧ (∀ s ∈ ss, 0 ≤ s ∧ s ≤ 1)) := by
  unfold mkRetrievalResult validateChunks validateScores
  split <;> rename_i h
  · simp only [Option.isSome_some, true_iff]
    simp only [Bool.and_eq_true, List.all_eq_true, decide_eq_true_eq] at h
    exact h
  · simp only [Option.isSome_none, Bool.false_eq_true, false_iff]
    intro hc
    apply h
    simp only [Bool.and_eq_true, List.all_eq_true, decide_eq_true_eq]
    exact hc

/-! ## C2 — ContextManager.add_result return value -/

/-- C2 (code_bug): `add_result` promises to report "whether the content was
added successfully", but on the eviction path it returns `true` without ever
inserting the new result.  Concretely: a manager whose (empty) window holds
10 tokens of budget, offered a result estimating to 11 tokens, reports
`true` while the window stays empty — the result is not represented. -/
theorem c2_add_result_divergence :
    ContextManager.add_result (fun _ => 0) (fun _ => 0) smallManager bigResult =
      (smallManager, true) ∧
    ContextManager.get_current_context smallManager = [] := by
  decide

/-! ## C3 — token accounting of the context window -/

open ContextManager in
/-- The greedy keep-loop either keeps nothing, or its kept charges fit in
`max_tokens - required_tokens` starting from the running total it was given. -/
theorem keepEntries_kept_sum_le (sLen : RetrievalResult → Nat)
    (maxT req : Nat) :
    ∀ (l : List (RetrievalResult × ℚ)) (cur : Nat),
      keepEntries sLen maxT req l cur = [] ∨
      (cur : ℤ) +
          ((keepEntries sLen maxT req l cur).map (fun e => sLen e.result)).sum ≤
        (maxT : ℤ) - (req : ℤ) := by
  intro l
  induction l with
  | nil => intro cur; exact Or.inl rfl
  | cons p rest ih =>
    intro cur
    obtain ⟨r, score⟩ := p
    by_cases hs : score < 7/10
    · simpa [keepEntries, hs] using ih cur
    · by_cases hfit : (cur : ℤ) + sLen r ≤ (maxT : ℤ) - (req : ℤ)
      · right
        simp only [keepEntries, if_neg hs, if_pos hfit, List.map_cons,
          List.sum_cons]
        rcases ih (cur + sLen r) with hnil | hle
        · simp [hnil]
          exact_mod_cast hfit
        · push_cast at hle ⊢
          linarith
      · simpa [keepEntries, hs, hfit] using ih cur

open ContextWindow in
/-- Re-adding a list of entries whose total charge fits rebuilds the window
by plain concatenation and summation. -/
theorem foldl_add_content_eq (sLen : RetrievalResult → Nat) :
    ∀ (es : List WindowEntry) (w : ContextWindow),
      w.current_tokens + (es.map (fun e => sLen e.result)).sum ≤ w.max_tokens →
      es.foldl (fun w e => (w.add_content e (sLen e.result)).1) w =
        { w with contents := w.contents ++ es,
                 current_tokens :=
                   w.current_tokens + (es.map (fun e => sLen e.result)).sum } := by
  intro es
  induction es with
  | nil => intro w _; simp
  | cons e rest ih =>
    intro w hle
    simp only [List.map_cons, List.sum_cons] at hle
    have hcan : w.can_add (sLen e.result) = true := by
      simp only [can_add, decide_eq_true_eq]
      omega
    have hstep : (w.add_content e (sLen e.result)).1 =
        { w with contents := w.contents ++ [e],
                 current_tokens := w.current_tokens + sLen e.result } := by
      simp [add_content, hcan]
    simp only [List.foldl_cons, hstep]
    rw [ih]
    · simp only [List.map_cons, List.sum_cons, List.append_assoc,
        List.singleton_append]
      congr 1
      omega
    · simpa using by omega

open ContextManager in
/-- On a non-empty window, `_optimize_window` rebuilds the window from the
greedy keep-list, recharging every kept entry at `len(str(result))`, and
returns `true`. -/
theorem optimize_window_eq (sLen : RetrievalResult → Nat) (m : ContextManager)
    (r : RetrievalResult) (req : Nat) (h : m.window.contents ≠ []) :
    _optimize_window sLen m r req =
      ({ m with window :=
          { m.window with
              contents := keepEntries sLen m.window.max_tokens req
                (sortByRelevanceDesc
                  (m.window.contents.map (fun c => (c.result, c.relevance)))) 0,
              current_tokens :=
                ((keepEntries sLen m.window.max_tokens req
                  (sortByRelevanceDesc
                    (m.window.contents.map (fun c => (c.result, c.relevance)))) 0).map
                  (fun e => sLen e.result)).sum } }, true) := by
  have hsum := keepEntries_kept_sum_le sLen m.window.max_tokens req
    (sortByRelevanceDesc (m.window.contents.map (fun c => (c.result, c.relevance)))) 0
  set kept := keepEntries sLen m.window.max_tokens req
    (sortByRelevanceDesc (m.window.contents.map (fun c => (c.result, c.relevance)))) 0
    with hkept
  have hfits : (m.window.clear).current_tokens +
      (kept.map (fun e => sLen e.result)).sum ≤ (m.window.clear).max_tokens := by
    rcases hsum with hnil | hle
    · simp [ContextWindow.clear, hnil]
    · simp only [ContextWindow.clear]
      have : ((kept.map (fun e => sLen e.result)).sum : ℤ) ≤ (m.window.max_tokens : ℤ) := by
        have : (0 : ℤ) ≤ (req : ℤ) := Int.ofNat_nonneg req
        linarith
      omega
  have hfold := foldl_add_content_eq sLen kept m.window.clear hfits
  simp only [_optimize_window, if_neg h, ← hkept]
  rw [hfold]
  simp [ContextWindow.clear]

/-- C3 (counterexample): `ContextWindow.add_content` charges whatever token
count the caller passes — charging 100 tokens for an entry whose chunk
contents estimate to 11 tokens under the `len // 4` rule succeeds, after
which `current_tokens` (100) is not the sum of the entries' `len // 4`
estimates (11). -/
theorem c3_estimate_rule_counterexample :
    ((ContextWindow.add_content {} ⟨bigResult, 9/10⟩ 100).2 = true) ∧
    (ContextWindow.add_content {} ⟨bigResult, 9/10⟩ 100).1.current_tokens = 100 ∧
    (((ContextWindow.add_content {} ⟨bigResult, 9/10⟩ 100).1.contents.map
        (fun e => ContextManager.resultTokens (fun _ => 0) e.result)).sum = 11) ∧
    (100 : Nat) ≠ 11 := by
  decide

open ContextManager ContextWindow in
/-- C3 (amended): after every successful mutation `current_tokens` never
exceeds `max_tokens`, and it equals the sum of the token counts actually
charged — but the `len(text)/4` rule governs only `add_result`'s direct path:
`ContextWindow.add_content` charges the caller's count unchecked, and the
eviction path recharges the kept entries at `len(str(result))` each. -/
theorem c3_token_accounting :
    (∀ (w : ContextWindow) (e : WindowEntry) (t : Nat),
      w.current_tokens ≤ w.max_tokens →
      (w.add_content e t).1.current_tokens ≤ w.max_tokens) ∧
    (∀ w : ContextWindow, w.clear.current_tokens = 0 ∧ w.clear.contents = []) ∧
    (∀ (sLen : RetrievalResult → Nat) (cLen : CodeContext → Nat)
       (m : ContextManager) (r : RetrievalResult),
      m.window.can_add (resultTokens cLen r) = true →
      (add_result sLen cLen m r).1.window.current_tokens =
        m.window.current_tokens + resultTokens cLen r) ∧
    (∀ (sLen : RetrievalResult → Nat) (cLen : CodeContext → Nat)
       (m : ContextManager) (r : RetrievalResult),
      m.window.can_add (resultTokens cLen r) = false →
      m.window.contents ≠ [] →
      (add_result sLen cLen m r).1.window.current_tokens =
        ((keepEntries sLen m.window.max_tokens (resultTokens cLen r)
          (sortByRelevanceDesc
            (m.window.contents.map (fun c => (c.result, c.relevance)))) 0).map
          (fun e => sLen e.result)).sum) ∧
    (∀ (sLen : RetrievalResult → Nat) (cLen : CodeContext → Nat)
       (m : ContextManager) (r : RetrievalResult),
      m.window.current_tokens ≤ m.window.max_tokens →
      (add_result sLen cLen m r).1.window.current_tokens ≤
        (add_result sLen cLen m r).1.window.max_tokens) := by
  have hadd : ∀ (w : ContextWindow) (e : WindowEntry) (t : Nat),
      w.current_tokens ≤ w.max_tokens →
      (w.add_content e t).1.current_tokens ≤ w.max_tokens := by
    intro w e t hw
    by_cases hc : w.can_add t = true
    · simp only [add_content, hc, if_true]
      simpa [can_add] using hc
    · simp only [add_content, hc, if_false, Bool.false_eq_true]
      exact hw
  have hdirect : ∀ (sLen : RetrievalResult → Nat) (cLen : CodeContext → Nat)
      (m : ContextManager) (r : RetrievalResult),
      m.window.can_add (resultTokens cLen r) = true →
      (add_result sLen cLen m r).1.window.current_tokens =
        m.window.current_tokens + resultTokens cLen r := by
    intro sLen cLen m r hfit
    simp [add_result, hfit, add_content]
  have hevict : ∀ (sLen : RetrievalResult → Nat) (cLen : CodeContext → Nat)
      (m : ContextManager) (r : RetrievalResult),
      m.window.can_add (resultTokens cLen r) = false →
      m.window.contents ≠ [] →
      (add_result sLen cLen m r).1.window.current_tokens =
        ((keepEntries sLen m.window.max_tokens (resultTokens cLen r)
          (sortByRelevanceDesc
            (m.window.contents.map (fun c => (c.result, c.relevance)))) 0).map
          (fun e => sLen e.result)).sum := by
    intro sLen cLen m r hfit hne
    simp only [add_result, hfit, Bool.false_eq_true, if_false]
    rw [optimize_window_eq sLen m r (resultTokens cLen r) hne]
  refine ⟨hadd, fun w => ⟨rfl, rfl⟩, hdirect, hevict, ?_⟩
  intro sLen cLen m r hw
  by_cases hfit : m.window.can_add (resultTokens cLen r) = true
  · have hmax : (add_result sLen cLen m r).1.window.max_tokens = m.window.max_tokens := by
      simp [add_result, hfit, add_content]
    rw [hmax, hdirect sLen cLen m r hfit]
    simpa [can_add] using hfit
  · have hfit' : m.window.can_add (resultTokens cLen r) = false := by
      simpa using hfit
    by_cases hne : m.window.contents = []
    · simp [add_result, hfit', _optimize_window, hne]
      exact hw
    · have heq := optimize_window_eq sLen m r (resultTokens cLen r) hne
      simp only [add_result, hfit', Bool.false_eq_true, if_false]
      rw [heq]
      have hsum := keepEntries_kept_sum_le sLen m.window.max_tokens
        (resultTokens cLen r)
        (sortByRelevanceDesc (m.window.contents.map (fun c => (c.result, c.relevance)))) 0
      rcases hsum with hnil | hle
      · simp [hnil]
      · simp only []
        have : (((keepEntries sLen m.window.max_tokens (resultTokens cLen r)
            (sortByRelevanceDesc
              (m.window.contents.map (fun c => (c.result, c.relevance)))) 0).map
            (fun e => sLen e.result)).sum : ℤ) ≤ (m.window.max_tokens : ℤ) := by
          have hreq : (0 : ℤ) ≤ (resultTokens cLen r : ℤ) := Int.ofNat_nonneg _
          linarith
        exact_mod_cast this

/-- C3 (witness): the amended accounting at concrete inputs — a direct add
into the 10-token window and the capacity bound on a full default window. -/
theorem c3_token_accounting_witness :
    (ContextManager.add_result (fun _ => 0) (fun _ => 0) { window := {} } bigResult).1.window.current_tokens =
      ({} : ContextWindow).current_tokens +
        ContextManager.resultTokens (fun _ => 0) bigResult ∧
    (ContextWindow.add_content smallManager.window ⟨bigResult, 9/10⟩ 11).1.current_tokens ≤
      smallManager.window.max_tokens := by
  constructor
  · exact (c3_token_accounting.2.2.1) (fun _ => 0) (fun _ => 0) { window := {} }
      bigResult (by decide)
  · exact (c3_token_accounting.1) smallManager.window ⟨bigResult, 9/10⟩ 11 (by decide)

/-! ## C4 — RateLimiter burst behavior -/

/-- Pruning a deque of timestamps all equal to the present instant removes
nothing. -/
theorem dropWhile_replicate_now (t0 : ℚ) (k : Nat) :
    (List.replicate k t0).dropWhile (fun t => t < t0 - 60) = List.replicate k t0 := by
  cases k with
  | zero => rfl
  | succ n =>
    have hnot : ¬ (t0 < t0 - 60) := by linarith
    simp [List.replicate_succ, List.dropWhile_cons, hnot]

open RateLimiter in
/-- The rate-limiter state after `k ≤ burst_limit` immediate acquires from a
fresh limiter: `burst_limit - k` tokens and `k` recorded timestamps. -/
theorem acquireIter_state (cfg : RateLimitConfig) (t0 : ℚ)
    (hb : cfg.burst_limit < cfg.requests_per_minute) :
    ∀ k : Nat, k ≤ cfg.burst_limit →
      acquireIter t0 (init cfg t0) k =
        { config := cfg, tokens := (cfg.burst_limit : ℚ) - k, last_update := t0,
          requests := List.replicate k t0 } := by
  intro k
  induction k with
  | zero => intro _; simp [acquireIter, init]
  | succ n ih =>
    intro hle
    have hn : n ≤ cfg.burst_limit := Nat.le_of_succ_le hle
    have hlt : n < cfg.burst_limit := hle
    simp only [acquireIter, ih hn]
    have htok : min (cfg.burst_limit : ℚ)
        ((cfg.burst_limit : ℚ) - n + (t0 - t0) * ((cfg.requests_per_minute : ℚ) / 60)) =
        (cfg.burst_limit : ℚ) - n := by
      have h0 : (0 : ℚ) ≤ (n : ℚ) := by positivity
      rw [sub_self, zero_mul, add_zero]
      exact min_eq_right (by linarith)
    have hwin : ¬ (cfg.requests_per_minute ≤ (List.replicate n t0).length) := by
      simp only [List.length_replicate]
      omega
    have htokens : ¬ ((cfg.burst_limit : ℚ) - n < 1) := by
      have : ((n : ℚ) + 1) ≤ (cfg.burst_limit : ℚ) := by exact_mod_cast hle
      linarith
    simp only [acquire, _refill_tokens, htok, dropWhile_replicate_now]
    rw [if_neg hwin, if_neg htokens]
    simp only [RateLimiter.mk.injEq, ← List.replicate_succ', and_true, true_and,
      eq_self_iff_true]
    push_cast
    ring

open RateLimiter in
/-- C4: on a fresh `RateLimiter` with `burst_limit < requests_per_minute` and
a positive cooldown, each of the first `burst_limit` immediate `acquire()`
calls is granted with wait 0, and the `(burst_limit+1)`-th call at the same
instant is denied with a strictly positive wait. -/
theorem c4_burst_then_deny (cfg : RateLimitConfig) (t0 : ℚ)
    (hb : cfg.burst_limit < cfg.requests_per_minute)
    (hc : 0 < cfg.cooldown_seconds) :
    (∀ k, k < cfg.burst_limit →
      ((acquireIter t0 (init cfg t0) k).acquire t0).1 = (true, 0)) ∧
    ((acquireIter t0 (init cfg t0) cfg.burst_limit).acquire t0).1.1 = false ∧
    0 < ((acquireIter t0 (init cfg t0) cfg.burst_limit).acquire t0).1.2 := by
  have hstate := acquireIter_state cfg t0 hb
  have hwin : ∀ k : Nat, k ≤ cfg.burst_limit →
      ¬ (cfg.requests_per_minute ≤ (List.replicate k t0).length) := by
    intro k hk
    simp only [List.length_replicate]
    omega
  have htok : ∀ k : Nat, min (cfg.burst_limit : ℚ)
      ((cfg.burst_limit : ℚ) - k + (t0 - t0) * ((cfg.requests_per_minute : ℚ) / 60)) =
      (cfg.burst_limit : ℚ) - k := by
    intro k
    have h0 : (0 : ℚ) ≤ (k : ℚ) := by positivity
    rw [sub_self, zero_mul, add_zero]
    exact min_eq_right (by linarith)
  refine ⟨?_, ?_, ?_⟩
  · intro k hk
    have htokens : ¬ ((cfg.burst_limit : ℚ) - k < 1) := by
      have : ((k : ℚ) + 1) ≤ (cfg.burst_limit : ℚ) := by exact_mod_cast hk
      linarith
    rw [hstate k (Nat.le_of_lt hk)]
    simp only [acquire, _refill_tokens, htok k, dropWhile_replicate_now]
    rw [if_neg (hwin k (Nat.le_of_lt hk)), if_neg htokens]
  · have hzero : (cfg.burst_limit : ℚ) - cfg.burst_limit < 1 := by
      rw [sub_self]; norm_num
    rw [hstate cfg.burst_limit (Nat.le_refl _)]
    simp only [acquire, _refill_tokens, htok cfg.burst_limit, dropWhile_replicate_now]
    rw [if_neg (hwin cfg.burst_limit (Nat.le_refl _)), if_pos hzero]
  · have hzero : (cfg.burst_limit : ℚ) - cfg.burst_limit < 1 := by
      rw [sub_self]; norm_num
    rw [hstate cfg.burst_limit (Nat.le_refl _)]
    simp only [acquire, _refill_tokens, htok cfg.burst_limit, dropWhile_replicate_now]
    rw [if_neg (hwin cfg.burst_limit (Nat.le_refl _)), if_pos hzero]
    exact hc

open RateLimiter in
/-- C4 (witness): with `requests_per_minute = 60`, `burst_limit = 2`,
`cooldown = 1` and all calls at instant 0, the first two acquires are granted
with wait 0 and the third is denied with positive wait. -/
theorem c4_burst_then_deny_witness :
    (∀ k, k < (2 : Nat) →
      ((acquireIter 0 (init ⟨60, 2, 1⟩ 0) k).acquire 0).1 = (true, 0)) ∧
    ((acquireIter 0 (init ⟨60, 2, 1⟩ 0) 2).acquire 0).1.1 = false ∧
    0 < ((acquireIter 0 (init ⟨60, 2, 1⟩ 0) 2).acquire 0).1.2 :=
  c4_burst_then_deny ⟨60, 2, 1⟩ 0 (by decide) (by decide)

/-! ## C5 — ResultCache round-trip and TTL expiry -/

open ResultCache in
/-- Reading back the key just written finds the written value. -/
theorem dictGet_dictSet_self (l : List (CacheKey × RetrievalResult × ℚ))
    (k : CacheKey) (v : RetrievalResult × ℚ) :
    dictGet (dictSet l k v) k = some v := by
  unfold dictSet
  by_cases h : l.any (fun p => decide (p.1 = k)) = true
  · rw [if_pos h]
    induction l with
    | nil => simp at h
    | cons p ps ih =>
      by_cases hp : p.1 = k
      · simp [dictGet, List.find?, hp]
      · have hps : ps.any (fun p => decide (p.1 = k)) = true := by
          simpa [List.any_cons, hp] using h
        simpa [dictGet, List.find?, hp] using ih hps
  · rw [if_neg h]
    induction l with
    | nil => simp [dictGet, List.find?]
    | cons p ps ih =>
      have hp : ¬ (p.1 = k) := by
        intro hk
        exact h (by simp [List.any_cons, hk])
      have hps : ¬ (ps.any (fun p => decide (p.1 = k)) = true) := by
        intro hk
        exact h (by simp [List.any_cons, hk])
      have hpd : (decide (p.1 = k)) = false := by simp [hp]
      simp only [dictGet, List.find?, hpd] at ih ⊢
      exact ih hps

open ResultCache in
/-- Writing one key grows the dictionary by at most one entry. -/
theorem dictSet_length_le (l : List (CacheKey × RetrievalResult × ℚ))
    (k : CacheKey) (v : RetrievalResult × ℚ) :
    (dictSet l k v).length ≤ l.length + 1 := by
  unfold dictSet
  by_cases h : l.any (fun p => decide (p.1 = k)) = true
  · simp [h]
  · simp [h]

open ResultCache in
/-- A deleted key is no longer found. -/
theorem dictGet_dictDel_self (l : List (CacheKey × RetrievalResult × ℚ))
    (k : CacheKey) :
    dictGet (dictDel l k) k = none := by
  unfold dictDel
  induction l with
  | nil => simp [dictGet, List.find?]
  | cons p ps ih =>
    by_cases hp : p.1 = k
    · have hpd : (decide (p.1 ≠ k)) = false := by simp [hp]
      simp only [List.filter, hpd]
      exact ih
    · have hpd : (decide (p.1 ≠ k)) = true := by simp [hp]
      have hfd : (decide (p.1 = k)) = false := by simp [hp]
      simp only [List.filter, hpd, dictGet, List.find?, hfd]
      exact ih

open ResultCache in
/-- Below capacity, `put` is exactly a dictionary write. -/
theorem put_below_capacity (c : ResultCache) (now : ℚ) (q : RetrievalQuery)
    (r : RetrievalResult) (h : c.cache.length < c.config.max_size) :
    c.put now q r =
      { c with cache := dictSet c.cache (_compute_key q) (r, now) } := by
  have hlen : ¬ (c.config.max_size < (dictSet c.cache (_compute_key q) (r, now)).length) := by
    have := dictSet_length_le c.cache (_compute_key q) (r, now)
    omega
  simp [put, hlen]

/-- C5 (counterexample): `put(q, r)` immediately followed by `get(q)` does
not return `r` when the stored result's own query text differs from `q` —
the similarity check compares `result.query`, not the key used for `put`. -/
theorem c5_roundtrip_counterexample :
    ((ResultCache.put {} 0 { query := "a" }
        { query := { query := "b" }, chunks := [], similarity_scores := [],
          execution_time := 0, total_chunks_searched := 0 }).get 0
        { query := "a" }).1 = none := by
  norm_num [ResultCache.get, ResultCache.put, ResultCache.dictSet,
    ResultCache.dictGet, ResultCache.dictDel, ResultCache._compute_key,
    ResultCache._is_similar_query, List.find?]
  rw [if_neg (show ¬ (("b" : String) = "a") by decide)]

open ResultCache in
/-- C5 (amended): `put(q, r); get(q)` returns `r` whenever the stored
result's query text and type agree with `q` (in particular when
`r.query = q`); and once more than `ttl_seconds` elapse, `get(q)` returns
`None`, physically deletes the entry and increments the miss counter. -/
theorem c5_roundtrip_and_ttl :
    (∀ (c : ResultCache) (now : ℚ) (q : RetrievalQuery) (r : RetrievalResult),
      r.query.query = q.query → r.query.query_type = q.query_type →
      0 ≤ c.config.ttl_seconds → c.cache.length < c.config.max_size →
      ((c.put now q r).get now q).1 = some r ∧
      ((c.put now q r).get now q).2.hits = c.hits + 1) ∧
    (∀ (c : ResultCache) (now later : ℚ) (q : RetrievalQuery)
       (r : RetrievalResult),
      c.cache.length < c.config.max_size →
      c.config.ttl_seconds < later - now →
      ((c.put now q r).get later q).1 = none ∧
      ((c.put now q r).get later q).2.misses = c.misses + 1 ∧
      dictGet ((c.put now q r).get later q).2.cache (_compute_key q) = none) := by
  constructor
  · intro c now q r hq ht httl hlen
    rw [put_below_capacity c now q r hlen]
    have hfound : dictGet (dictSet c.cache (_compute_key q) (r, now)) (_compute_key q) =
        some (r, now) := dictGet_dictSet_self _ _ _
    have hsim : _is_similar_query r.query q = true := by
      simp [_is_similar_query, hq, ht]
    have hnotold : ¬ (c.config.ttl_seconds < now - now) := by
      rw [sub_self]
      exact not_lt.mpr httl
    simp only [ResultCache.get, hfound]
    rw [if_neg hnotold, if_pos hsim]
    exact ⟨rfl, rfl⟩
  · intro c now later q r hlen httl
    rw [put_below_capacity c now q r hlen]
    have hfound : dictGet (dictSet c.cache (_compute_key q) (r, now)) (_compute_key q) =
        some (r, now) := dictGet_dictSet_self _ _ _
    simp only [ResultCache.get, hfound]
    rw [if_pos httl]
    exact ⟨rfl, rfl, dictGet_dictDel_self _ _⟩

/-- C5 (witness): an immediate round-trip on a fresh cache returns the stored
result, and a read two hours later (TTL is 3600 s) misses and deletes it. -/
theorem c5_roundtrip_and_ttl_witness :
    ((ResultCache.put {} 0 sampleQuery bigResult).get 0 sampleQuery).1 =
      some bigResult ∧
    ((ResultCache.put {} 0 sampleQuery bigResult).get 7200 sampleQuery).1 = none :=
  ⟨(c5_roundtrip_and_ttl.1 {} 0 sampleQuery bigResult rfl rfl
      (by norm_num) (by norm_num)).1,
   (c5_roundtrip_and_ttl.2 {} 0 7200 sampleQuery bigResult
      (by norm_num) (by norm_num)).1⟩

/-! ## C6 — MetricsTracker.calculate_metrics precision and f1 -/

open MetricsTracker in
/-- C6 (counterexample): for scores `[0.5, 0.4, 0.6]` at threshold `0.7` the
returned precision is the floored `0.01`, not the claimed ratio `0.0`; and a
result with one chunk but no similarity scores gets `f1_score = 0`, not a
strictly positive value. -/
theorem c6_returned_precision_counterexample :
    (calculate_metrics lowScoresResult 0).map (·.precision) = some (1/100) ∧
    (1 : ℚ)/100 ≠ 0 ∧
    (calculate_metrics oneChunkNoScores 0).map (·.f1_score) = some 0 := by
  refine ⟨?_, by norm_num, ?_⟩
  · norm_num [calculate_metrics, metricsRaw, metricsValid, lowScoresResult,
      sampleQuery, List.filter_cons]
  · norm_num [calculate_metrics, metricsRaw, metricsValid, oneChunkNoScores,
      sampleQuery, List.filter_cons]

open MetricsTracker in
/-- C6 (amended): when scores exist the returned precision is
`max(relevant/total, 0.01)` and f1 is strictly positive; with no scores both
precision and f1 are 0 (even when chunks were returned); the spec examples
compute to precision 1.0 (scores `[0.9, 0.85, 0.95]`) and 0.01 (scores
`[0.5, 0.4, 0.6]`) at threshold 0.7. -/
theorem c6_precision_flooring :
    (∀ (r : RetrievalResult) (now : ℚ) (m : RetrievalMetrics),
      calculate_metrics r now = some m →
      (r.similarity_scores = [] → m.precision = 0 ∧ m.f1_score = 0) ∧
      (r.similarity_scores ≠ [] →
        m.precision = max (((r.similarity_scores.filter
            (fun s => r.query.min_similarity ≤ s)).length : ℚ) /
            (r.similarity_scores.length : ℚ)) (1/100) ∧
        0 < m.f1_score)) ∧
    ((calculate_metrics highScoresResult 0).map (·.precision) = some 1) ∧
    ((calculate_metrics lowScoresResult 0).map (·.precision) = some (1/100)) := by
  refine ⟨?_, ?_, ?_⟩
  · intro r now m hm
    have hraw : m = metricsRaw r now := by
      by_cases hv : metricsValid (metricsRaw r now) = true
      · simpa [calculate_metrics, hv] using hm.symm
      · simp [calculate_metrics, hv] at hm
    subst hraw
    constructor
    · intro hnil
      simp [metricsRaw, hnil]
    · intro hne
      have hlen : 0 < r.similarity_scores.length := List.length_pos.mpr hne
      have hlenQ : (0 : ℚ) < (r.similarity_scores.length : ℚ) := by
        exact_mod_cast hlen
      constructor
      · simp [metricsRaw, hlen]
      · have hp : (0 : ℚ) < max (((r.similarity_scores.filter
            (fun s => r.query.min_similarity ≤ s)).length : ℚ) /
            (r.similarity_scores.length : ℚ)) (1/100) :=
          lt_max_of_lt_right (by norm_num)
        have hr : (0 : ℚ) < max ((r.similarity_scores.length : ℚ) /
            ((max r.total_chunks_searched 1 : Nat) : ℚ)) (1/100) :=
          lt_max_of_lt_right (by norm_num)
        simp only [metricsRaw, hlen, if_pos]
        positivity
  · norm_num [calculate_metrics, metricsRaw, metricsValid, highScoresResult,
      sampleQuery, List.filter_cons]
  · norm_num [calculate_metrics, metricsRaw, metricsValid, lowScoresResult,
      sampleQuery, List.filter_cons]

open MetricsTracker in
/-- C6 (witness): the amended characterization applied to the concrete
no-scores result `oneChunkNoScores`. -/
theorem c6_precision_flooring_witness :
    (oneChunkNoScores.similarity_scores = [] →
      noScoresMetrics.precision = 0 ∧ noScoresMetrics.f1_score = 0) ∧
    (oneChunkNoScores.similarity_scores ≠ [] →
      noScoresMetrics.precision = max (((oneChunkNoScores.similarity_scores.filter
          (fun s => oneChunkNoScores.query.min_similarity ≤ s)).length : ℚ) /
          (oneChunkNoScores.similarity_scores.length : ℚ)) (1/100) ∧
      0 < noScoresMetrics.f1_score) :=
  c6_precision_flooring.1 oneChunkNoScores 0 noScoresMetrics
    (by norm_num [calculate_metrics, metricsRaw, metricsValid,
      oneChunkNoScores, noScoresMetrics, sampleQuery])

/-! ## C7 — FallbackManager.handle_failure strategy chain -/

open FallbackManager in
/-- C7 (counterexample): with the default strategy list, an escalating
failure (a lone `ConnectionError`, attempt 1 of 3) returns `None`: the chain
stops at `REDUCED_CONTEXT`, whose placeholder executor returns `None`, and
the final `ERROR_ONLY` strategy is never reached. -/
theorem c7_default_chain_counterexample :
    (handle_failure {} [] 0 connectionError sampleQuery 1).1 =
      .returns none ∧
    _should_activate_fallback (_record_failure [] 0 connectionError) 0
      connectionError = true ∧
    (1 : Nat) ≤ ({} : FallbackConfig).max_retries := by
  refine ⟨?_, ?_, by norm_num⟩
  · norm_num [handle_failure, _record_failure, _should_activate_fallback,
      recentFailureCount, tryStrategies, _execute_fallback, connectionError,
      List.filter_cons]
  · norm_num [_record_failure, _should_activate_fallback,
      recentFailureCount, connectionError, List.filter_cons]

open FallbackManager in
/-- C7 (amended): when the attempt budget holds and the activation rule
fires, `handle_failure` returns the strategy chain's value; when the rule
does not fire, the plain-retry branch raises `TypeError` instead of
returning; in the chain `CACHE_ONLY` and `LOCAL_SEARCH` are skipped,
`REDUCED_CONTEXT` and `SIMPLIFIED_QUERY` return the placeholder executor's
`None`, and `ERROR_ONLY` returns the empty error-tagged result — so the
default list yields `None` and a non-`None` result needs a list whose first
returning strategy is `ERROR_ONLY`. -/
theorem c7_fallback_chain :
    (∀ (cfg : FallbackConfig) (h : FailureHistory) (now : ℚ) (e : PyError)
       (q : RetrievalQuery) (attempt : Nat),
      attempt ≤ cfg.max_retries →
      _should_activate_fallback (_record_failure h now e) now e = true →
      (handle_failure cfg h now e q attempt).1 =
        .returns (tryStrategies q cfg.strategies)) ∧
    (∀ (cfg : FallbackConfig) (h : FailureHistory) (now : ℚ) (e : PyError)
       (q : RetrievalQuery) (attempt : Nat),
      attempt ≤ cfg.max_retries →
      _should_activate_fallback (_record_failure h now e) now e = false →
      (handle_failure cfg h now e q attempt).1 = .raisesTypeError) ∧
    (∀ (cfg : FallbackConfig) (h : FailureHistory) (now : ℚ) (e : PyError)
       (q : RetrievalQuery) (attempt : Nat),
      cfg.max_retries < attempt →
      (handle_failure cfg h now e q attempt).1 = .returns none) ∧
    (∀ (q : RetrievalQuery) (rest : List FallbackStrategy),
      tryStrategies q (.cache_only :: rest) = tryStrategies q rest) ∧
    (∀ (q : RetrievalQuery) (rest : List FallbackStrategy),
      tryStrategies q (.local_search :: rest) = tryStrategies q rest) ∧
    (∀ (q : RetrievalQuery) (rest : List FallbackStrategy),
      tryStrategies q (.reduced_context :: rest) = none) ∧
    (∀ (q : RetrievalQuery) (rest : List FallbackStrategy),
      tryStrategies q (.simplified_query :: rest) = none) ∧
    (∀ (q : RetrievalQuery) (rest : List FallbackStrategy),
      tryStrategies q (.error_only :: rest) = some (errorOnlyResult q)) ∧
    (∀ q : RetrievalQuery,
      tryStrategies q ({} : FallbackConfig).strategies = none) ∧
    (∀ q : RetrievalQuery,
      tryStrategies q [.cache_only, .local_search, .error_only] =
        some (errorOnlyResult q)) := by
  refine ⟨?_, ?_, ?_, ?_, ?_, ?_, ?_, ?_, ?_, ?_⟩
  · intro cfg h now e q attempt hle hact
    rw [handle_failure, if_neg (Nat.not_lt.mpr hle)]
    simp [hact]
  · intro cfg h now e q attempt hle hact
    rw [handle_failure, if_neg (Nat.not_lt.mpr hle)]
    simp [hact]
  · intro cfg h now e q attempt hgt
    rw [handle_failure, if_pos hgt]
  · intro q rest; rfl
  · intro q rest; rfl
  · intro q rest; rfl
  · intro q rest; rfl
  · intro q rest; rfl
  · intro q
    simp [tryStrategies, _execute_fallback]
  · intro q
    simp [tryStrategies]

open FallbackManager in
/-- C7 (witness): the escalation clause applied to a concrete lone
`ConnectionError` at attempt 1 under the default configuration, and the
raising clause applied to a single generic error (count 1 < 3, no critical
type, no rate-limit message) at the same attempt. -/
theorem c7_fallback_chain_witness :
    (handle_failure {} [] 0 connectionError sampleQuery 1).1 =
      .returns (tryStrategies sampleQuery ({} : FallbackConfig).strategies) ∧
    (handle_failure {} [] 0 genericError sampleQuery 1).1 =
      .raisesTypeError :=
  ⟨c7_fallback_chain.1 {} [] 0 connectionError sampleQuery 1 (by norm_num)
    (by norm_num [_record_failure, _should_activate_fallback,
      recentFailureCount, connectionError, List.filter_cons]),
   c7_fallback_chain.2.1 {} [] 0 genericError sampleQuery 1 (by norm_num)
    (by
      have hpre : ("boom".startsWith "Rate limit exceeded") = false := by decide
      norm_num [_record_failure, _should_activate_fallback,
        recentFailureCount, genericError, List.filter_cons, hpre])⟩

/-! ## C8 — FallbackManager._should_activate_fallback -/

open FallbackManager in
/-- C8: the activation rule fires exactly when at least 3 failures fall in
the trailing 5 minutes, or the error is a timeout/connection error, or its
message starts with "Rate limit exceeded"; recording a failure at the
present instant raises the recent count by one; 3 recent failures activate
for any error, and a connection error activates regardless of count. -/
theorem c8_activation_rule :
    (∀ (h : FailureHistory) (now : ℚ) (e : PyError),
      _should_activate_fallback h now e = true ↔
        (3 ≤ recentFailureCount h now ∨ e.isTimeoutError = true ∨
         e.isConnectionError = true ∨
         e.message.startsWith "Rate limit exceeded" = true)) ∧
    (∀ (h : FailureHistory) (now : ℚ) (e : PyError),
      recentFailureCount (_record_failure h now e) now =
        recentFailureCount h now + 1) ∧
    (∀ (h : FailureHistory) (now : ℚ) (e : PyError),
      3 ≤ recentFailureCount h now → _should_activate_fallback h now e = true) ∧
    (∀ (h : FailureHistory) (now : ℚ) (e : PyError),
      e.isConnectionError = true → _should_activate_fallback h now e = true) := by
  have hcount : ∀ (h : FailureHistory) (now : ℚ) (e : PyError),
      recentFailureCount (_record_failure h now e) now =
        recentFailureCount h now + 1 := by
    intro h now e
    unfold recentFailureCount _record_failure
    rw [List.filter_append, List.filter_append, List.filter_filter,
      List.length_append]
    congr 1
    · congr 1
      apply List.filter_congr
      intro p _
      by_cases hp : now - 300 ≤ p.1
      · have hq : now - 3600 ≤ p.1 := by linarith
        simp [hp, hq]
      · simp [hp]
    · have h1 : now - 3600 ≤ now := by linarith
      have h2 : now - 300 ≤ now := by linarith
      simp [List.filter_cons, h1, h2]
  refine ⟨?_, hcount, ?_, ?_⟩
  · intro h now e
    simp [_should_activate_fallback, or_assoc]
  · intro h now e hc
    simp [_should_activate_fallback, hc]
  · intro h now e hc
    simp [_should_activate_fallback, hc]

open FallbackManager in
/-- C8 (witness): a lone connection error activates on an empty history, and
recording one failure at instant 0 raises the recent count from 0 to 1. -/
theorem c8_activation_rule_witness :
    _should_activate_fallback [] 0 connectionError = true ∧
    recentFailureCount (_record_failure [] 0 connectionError) 0 =
      recentFailureCount [] 0 + 1 :=
  ⟨c8_activation_rule.2.2.2 [] 0 connectionError rfl,
   c8_activation_rule.2.1 [] 0 connectionError⟩

/-! ## C9 — AdaptiveRetriever complexity estimate and quick strategy -/

open AdaptiveRetriever in
/-- C9 (counterexample): the complexity estimate is not confined to `[0,1]`:
a plain ten-word query already scores `10 * 0.3 / 1.0 = 3`. -/
theorem c9_complexity_unbounded_counterexample :
    _estimate_query_complexity tenWordQuery = 3 ∧
    ¬ (_estimate_query_complexity tenWordQuery ≤ 1) := by
  have hw : pyWordCount "a a a a a a a a a a" = 10 := by decide
  have hq : quoteCount "a a a a a a a a a a" = 0 := by decide
  constructor
  · norm_num [_estimate_query_complexity, tenWordQuery, pyBool, hw, hq]
  · norm_num [_estimate_query_complexity, tenWordQuery, pyBool, hw, hq]

open AdaptiveRetriever in
/-- C9 (amended): the estimate is the weighted combination of the five raw
factors divided by the weight total `1.0`; it is non-negative but unbounded
above; and with no agent context any estimate below `0.4` selects the
"quick" strategy. -/
theorem c9_complexity_and_quick :
    (∀ q : AdaptiveQuery,
      _estimate_query_complexity q =
        ((pyWordCount q.text : ℚ) * (3/10) +
         ((q.filters.getD []).length : ℚ) * (2/10) +
         (quoteCount q.text : ℚ) * (1/10) +
         (pyBool q.code_context : ℚ) * (2/10) +
         (pyBool q.metadata : ℚ) * (2/10)) / 1) ∧
    (∀ q : AdaptiveQuery, 0 ≤ _estimate_query_complexity q) ∧
    (∀ q : AdaptiveQuery,
      _estimate_query_complexity q < 4/10 →
      _select_strategy q none = quickStrategy) := by
  have hform : ∀ q : AdaptiveQuery,
      _estimate_query_complexity q =
        ((pyWordCount q.text : ℚ) * (3/10) +
         ((q.filters.getD []).length : ℚ) * (2/10) +
         (quoteCount q.text : ℚ) * (1/10) +
         (pyBool q.code_context : ℚ) * (2/10) +
         (pyBool q.metadata : ℚ) * (2/10)) / 1 := by
    intro q
    simp only [_estimate_query_complexity, List.zip_cons_cons, List.zip_nil_right,
      List.map_cons, List.map_nil, List.sum_cons, List.sum_nil]
    norm_num
    ring
  refine ⟨hform, ?_, ?_⟩
  · intro q
    rw [hform q]
    positivity
  · intro q hc
    have h1 : ¬ ((8 : ℚ)/10 < _estimate_query_complexity q) := by
      intro h
      linarith
    have h2 : ¬ ((4 : ℚ)/10 < _estimate_query_complexity q) := by
      intro h
      linarith
    simp [_select_strategy, h1, h2]

open AdaptiveRetriever in
/-- C9 (witness): the quick-selection clause applied to a concrete one-word
query (complexity `0.3 < 0.4`) with no agent context. -/
theorem c9_complexity_and_quick_witness :
    _select_strategy oneWordQuery none = quickStrategy :=
  c9_complexity_and_quick.2.2 oneWordQuery (by
    have hw : pyWordCount "hello" = 1 := by decide
    have hq : quoteCount "hello" = 0 := by decide
    norm_num [_estimate_query_complexity, oneWordQuery, pyBool, hw, hq])

/-! ## C10 — absence of metrics data reads as healthy -/

open MetricsTracker in
/-- C10: an empty metrics history, or a window containing no recorded
metric, yields a "healthy" summary with zero averages and an empty
breakdown; `check_system_health` on an empty history returns
`is_valid = true` with confidence `1.0`. -/
theorem c10_no_data_healthy :
    (∀ (now : ℚ) (w : WindowSize),
      get_performance_summary now [] w =
        { status := "healthy", average_precision := 0, average_recall := 0,
          average_latency_ms := 0, query_type_breakdown := [],
          time_window := 0 }) ∧
    (∀ (now : ℚ) (history : List RetrievalMetrics) (d : ℚ),
      recentMetrics now (.duration d) history = [] →
      get_performance_summary now history (.duration d) =
        { status := "healthy", average_precision := 0, average_recall := 0,
          average_latency_ms := 0, query_type_breakdown := [],
          time_window := 0 }) ∧
    (check_system_health [] =
      { is_valid := true, confidence := 1,
        issues := ["No metrics data available yet"], suggestions := [] }) := by
  refine ⟨?_, ?_, ?_⟩
  · intro now w
    simp [get_performance_summary, emptySummary]
  · intro now history d hrec
    by_cases hh : history = []
    · simp [hh, get_performance_summary, emptySummary]
    · simp [get_performance_summary, hh, hrec, emptySummary]
  · simp [check_system_health]

open MetricsTracker in
/-- C10 (witness): a one-record history whose only timestamp (0) falls
outside a 10-second window ending at instant 1000 reports the healthy empty
summary. -/
theorem c10_no_data_healthy_witness :
    get_performance_summary 1000 [noScoresMetrics] (.duration 10) =
      { status := "healthy", average_precision := 0, average_recall := 0,
        average_latency_ms := 0, query_type_breakdown := [],
        time_window := 0 } :=
  c10_no_data_healthy.2.1 1000 [noScoresMetrics] 10
    (by norm_num [recentMetrics, noScoresMetrics, List.filter_cons])

end Hypera
